import Mathlib

/-!
Verification of the QuizGeneratorBot quiz generation & delivery pipeline.

Shallow embedding of the parts of the repository that the specification's
claims are about:
  * `app/services/gemini.py`   — the AI generation client (`generate_questions`,
    `_choose_api_key`): API-key resolution, response parsing, per-element
    schema validation, broad exception catching.
  * `app/services/scheduler.py` — the poller (`QuizScheduler._tick`): the
    atomic conditional job claim, chunk distribution of the requested item
    count, the empty-generation failure path, and text-mode rendering.
  * `app/services/file_parser.py` — `chunk_text` and `fetch_and_parse_file`.
  * `app/repositories/users.py` — `reset_notes_if_new_day`.

External effects (the Gemini HTTP call, `json.loads`, Telegram sends, file
downloads/extractor libraries, MongoDB) are modelled as explicit parameters
or small state-transition functions; all control flow around them is
translated from the Python source.
-/

/-! ### Python string primitives (modelled on `List Char`)

Python `str` operations used by the sources, re-implemented over `List Char`
so that everything kernel-reduces. -/

/-- Python `str.strip()` on a character list: drop leading and trailing
whitespace. -/
def pyStripL (l : List Char) : List Char :=
  ((l.dropWhile Char.isWhitespace).reverse.dropWhile Char.isWhitespace).reverse

/-- Python `str.strip()` on a `String`. -/
def pyStrip (s : String) : String :=
  String.mk (pyStripL s.toList)

/-- Python `str.find(c)`: index of the first occurrence of `c`, or `none`
(Python: `-1`). -/
def pyFind (c : Char) : List Char → Option Nat
  | [] => none
  | x :: rest => if x = c then some 0 else (pyFind c rest).map (· + 1)

/-- Python `str.rfind(c)`: index of the last occurrence of `c`, or `none`. -/
def pyRFind (c : Char) (l : List Char) : Option Nat :=
  (pyFind c l.reverse).map (fun i => l.length - 1 - i)

/-- One fuelled pass of Python `str.replace(pat, rep)` (non-empty `pat`):
replace every non-overlapping occurrence, left to right. -/
def pyReplaceAux (pat rep : List Char) : Nat → List Char → List Char
  | 0, l => l
  | _ + 1, [] => []
  | fuel + 1, c :: rest =>
    if pat ≠ [] ∧ pat.isPrefixOf (c :: rest) then
      rep ++ pyReplaceAux pat rep fuel ((c :: rest).drop pat.length)
    else
      c :: pyReplaceAux pat rep fuel rest

/-- Python `str.replace(pat, rep)` for a non-empty pattern. -/
def pyReplace (l pat rep : List Char) : List Char :=
  pyReplaceAux pat rep l.length l

/-- Python slice `l[start:stop]` (non-negative indices). -/
def pySlice (l : List Char) (start stop : Nat) : List Char :=
  (l.drop start).take (stop - start)

/-- Python `s[:n]` truncation on a `String` (e.g. `explanation[:195]`). -/
def pyTrunc (n : Nat) (s : String) : String :=
  String.mk (s.toList.take n)

/-- Python string lowercasing (`str.lower()`), character by character. -/
def pyLower (s : String) : String :=
  String.mk (s.toList.map Char.toLower)

/-- Python `sub in s` substring membership on character lists. -/
def listHasSub (sub : List Char) : List Char → Bool
  | [] => sub.isEmpty
  | c :: rest => sub.isPrefixOf (c :: rest) || listHasSub sub rest

/-! ### JSON values

A model of the values `json.loads` can return; `app/services/gemini.py`
keeps the parsed elements as raw dicts, so the client's result type is
`List Json`. -/

/-- A parsed JSON value (the possible results of Python `json.loads`). -/
inductive Json where
  | null : Json
  | bool (b : Bool) : Json
  | num (n : Int) : Json
  | str (s : String) : Json
  | arr (elems : List Json) : Json
  | obj (fields : List (String × Json)) : Json

/-- `isinstance(q, dict)`. -/
def Json.isObj : Json → Bool
  | .obj _ => true
  | _ => false

/-- Python `k in q` for a dict value (`false` on non-dicts). -/
def Json.hasKey (j : Json) (k : String) : Bool :=
  match j with
  | .obj fields => fields.any (fun p => p.1 == k)
  | _ => false

/-- Python `q[k]` lookup on a dict value (first binding wins). -/
def Json.getKey (j : Json) (k : String) : Option Json :=
  match j with
  | .obj fields => (fields.find? (fun p => p.1 == k)).map (fun p => p.2)
  | _ => none

/-- Python iteration `for q in parsed`: lists yield their elements, strings
their characters, dicts their keys; other values raise `TypeError` (which the
client's outer handler catches). -/
def pyIterate : Json → Except Unit (List Json)
  | .arr elems => Except.ok elems
  | .str s => Except.ok (s.toList.map (fun c => Json.str (String.mk [c])))
  | .obj fields => Except.ok (fields.map (fun p => Json.str p.1))
  | _ => Except.error ()

/-! ### `app/services/gemini.py` -/

/-- The four keys required of each response element
(`("question", "choices", "answer_index", "explanation")`). -/
def requiredKeys : List String :=
  ["question", "choices", "answer_index", "explanation"]

/-- The per-element validation predicate of `generate_questions`
(gemini.py lines 122–127): `isinstance(q, dict) and all(k in q for k in ...)`. -/
def validElem (j : Json) : Bool :=
  j.isObj && requiredKeys.all (fun k => j.hasKey k)

/-- `_choose_api_key` (gemini.py lines 10–22). `userKey` is the outcome of the
users-repository lookup (`none` when the user id is absent, no key is stored,
or the lookup raised — the function maps all of those to `None`); `globalKey`
is `cfg.gemini_api_key` (`""` when unset). `if not api_key:` falls back to
`cfg.gemini_api_key or None`. -/
def choose_api_key (userKey : Option String) (globalKey : String) : Option String :=
  match userKey with
  | some k =>
    if k = "" then (if globalKey = "" then none else some globalKey) else some k
  | none => if globalKey = "" then none else some globalKey

/-- Outcome of the external Gemini call (`client.models.generate_content`):
either an exception during client construction / the call itself, or a
response whose `.text` is `none` or a string. -/
inductive CallOutcome where
  | exn : CallOutcome
  | ok (text : Option String) : CallOutcome

/-- The tail of `generate_questions` after the JSON-extraction attempt
(gemini.py lines 118–128): a parse failure (`parsedOpt = none`) was caught by
the inner `except` and yields `[]`; iterating a non-iterable parse result
raises `TypeError`, caught by the outer handler, also `[]`; otherwise keep the
elements passing `validElem`. -/
def parseOutcome (parsedOpt : Option Json) : List Json :=
  match parsedOpt with
  | none => []
  | some parsed =>
    match pyIterate parsed with
    | Except.error _ => []
    | Except.ok elems => elems.filter validElem

/-- The JSON-extraction step of `generate_questions`
(gemini.py lines 105–117): strip the response text; when both `text.find('[')`
and `text.rfind(']')` succeed, `json.loads` the bracket slice; otherwise
`json.loads` the code-fence-cleaned, re-stripped text. `loads` models
`json.loads` (`none` = raises, caught by the inner `except`). -/
def extractParsed (rtext : String) (loads : List Char → Option Json) : Option Json :=
  let text := pyStripL rtext.toList
  match pyFind '[' text, pyRFind ']' text with
  | some s, some e => loads (pySlice text s (e + 1))
  | _, _ =>
    loads (pyStripL (pyReplace (pyReplace text "```json".toList []) "```".toList []))

/-- The body of `generate_questions` after an API key was resolved
(gemini.py lines 41–132): make the call; `if not response.text: return []`;
extract and parse with `extractParsed`; finish with `parseOutcome`; any
exception during the call is caught by the outer handler and yields `[]`. -/
def genBody (call : CallOutcome) (loads : List Char → Option Json) : List Json :=
  match call with
  | .exn => []
  | .ok none => []
  | .ok (some rtext) =>
    if rtext = "" then []
    else parseOutcome (extractParsed rtext loads)

/-- `generate_questions` (gemini.py lines 24–132). The prompt-assembly
parameters (note, count, difficulty, media, …) only shape the request sent to
the external service and are folded into `call`, the outcome of that external
call. Returns the validated element list together with the number of external
calls attempted (`0` exactly when no API key was resolved and the function
returned `[]` before constructing a client). -/
def generate_questions (userKey : Option String) (globalKey : String)
    (call : CallOutcome) (loads : List Char → Option Json) : List Json × Nat :=
  match choose_api_key userKey globalKey with
  | none => ([], 0)
  | some _ => (genBody call loads, 1)

/-! ### `app/services/file_parser.py` — `chunk_text` -/

/-- The loop of `chunk_text` (file_parser.py lines 55–60), fuelled: while the
buffer is non-empty, emit `buf[:max_chars]` and continue on `buf[max_chars:]`.
With `maxChars ≥ 1` a fuel of `buf.length` is enough (each pass consumes at
least one character); with `maxChars = 0` the Python loop never terminates. -/
def chunkAux (maxChars : Nat) : Nat → List Char → List (List Char)
  | 0, _ => []
  | _ + 1, [] => []
  | fuel + 1, c :: rest =>
    (c :: rest).take maxChars :: chunkAux maxChars fuel ((c :: rest).drop maxChars)

/-- `chunk_text(text, max_chars)` (file_parser.py lines 54–60): the buffer is
`text.strip()` and the loop slices it left to right. -/
def chunk_text (text : List Char) (maxChars : Nat) : List (List Char) :=
  chunkAux maxChars (pyStripL text).length (pyStripL text)

/-! ### `app/services/scheduler.py` — job claim, distribution, rendering -/

/-- `ScheduledJob.status` values. -/
inductive JobStatus where
  | pending : JobStatus
  | processing : JobStatus
  | sent : JobStatus
  | failed : JobStatus
deriving DecidableEq, BEq

/-- The atomic conditional claim (scheduler.py line 32):
`update_one({_id, status: "pending"}, {$set: {status: "processing"}})`.
Returns the new status and `modified_count`: the update matches (and
modifies) the document only when the status is still `pending`. MongoDB
serialises single-document updates, so concurrent attempts execute in some
sequential order. -/
def claimJob (s : JobStatus) : JobStatus × Nat :=
  if s = JobStatus.pending then (JobStatus.processing, 1) else (s, 0)

/-- Two workers race to claim the same job (scheduler.py lines 32–34); the
database serialises the two `update_one` calls, and both workers run the same
conditional update, so one order covers both interleavings. A worker executes
the job body iff its `modified_count` is non-zero; this counts the executors. -/
def executionsOfTwoClaims (s : JobStatus) : Nat :=
  (if (claimJob s).2 ≠ 0 then 1 else 0) +
    (if (claimJob (claimJob s).1).2 ≠ 0 then 1 else 0)

/-- The due-job selection predicate of `_tick` (scheduler.py line 29):
`{"status": "pending", "scheduled_at": {"$lte": now}}`. -/
def isDue (status : JobStatus) (scheduledAt now : Nat) : Bool :=
  status == JobStatus.pending && decide (scheduledAt ≤ now)

/-- The chunk loop of `_tick` (scheduler.py lines 49–54) and of
`handle_send_now` (bot.py lines 1476–1480): iterate the chunks, breaking once
`len(questions) >= num`; otherwise extend `questions` with the batch the
generation client returns for the chunk. `gen ch perChunk` is that batch.
Returns the accumulated list and the number of generation calls made. -/
def distributeLoop (num perChunk : Nat) (gen : List Char → Nat → List Json) :
    List (List Char) → List Json → List Json × Nat
  | [], acc => (acc, 0)
  | ch :: rest, acc =>
    if num ≤ acc.length then (acc, 0)
    else
      let r := distributeLoop num perChunk gen rest (acc ++ gen ch perChunk)
      (r.1, r.2 + 1)

/-- `per_chunk = max(1, num // max(1, len(chunks)))` (scheduler.py line 48,
bot.py line 1475). -/
def schedulerPerChunk (num k : Nat) : Nat :=
  max 1 (num / max 1 k)

/-- The file-content branch of `_tick` (scheduler.py lines 46–55): compute
`per_chunk`, run the chunk loop from an empty accumulator, then truncate with
`questions[:num]`. Returns the final questions and the generation-call count. -/
def schedulerDistribute (num : Nat) (chunks : List (List Char))
    (gen : List Char → Nat → List Json) : List Json × Nat :=
  let r := distributeLoop num (schedulerPerChunk num chunks.length) gen chunks []
  (r.1.take num, r.2)

/-- Outcome for a claimed job after generation (scheduler.py lines 60–87):
`if not questions:` set status `failed` and `continue` (no sends); otherwise
send every question and set status `sent`. Returns the final status and the
number of delivery sends attempted. -/
def runClaimedJob (questions : List Json) : JobStatus × Nat :=
  if questions.isEmpty then (JobStatus.failed, 0)
  else (JobStatus.sent, questions.length)

/-- One generated item as consumed by the delivery loop (the raw dict's
`question`, `choices`, `answer_index`, `explanation` entries). -/
structure GeneratedItem where
  question : String
  choices : List String
  answer_index : Nat
  explanation : String

/-- `letters = ["A", "B", "C", "D"]` (scheduler.py line 64). -/
def letters : List String :=
  ["A", "B", "C", "D"]

/-- The choice lines of text-mode rendering (scheduler.py lines 69–71):
for each choice, `letters[i]` when `i < len(letters)` else `str(i + 1)`,
then `". "`, the choice, and a newline, appended onto `t`. -/
def renderChoices (choices : List String) (t : String) : String :=
  choices.enum.foldl
    (fun acc p =>
      acc ++ (if p.1 < letters.length then letters.getD p.1 "" else toString (p.1 + 1)) ++
        ". " ++ p.2 ++ "\n")
    t

/-- Text-mode rendering of one item (scheduler.py lines 67–75): the numbered
question line, the lettered choice lines, and the
`"\nCorrect Answer: {letters[answer_index]} - {choices[answer_index]}"` line,
plus `"\nExplanation: " + explanation[:195]` when the explanation is truthy.
`none` models the `IndexError` raised when `answer_index` is out of range for
`letters` or for the item's own choices (caught by the tick's handler). -/
def renderText (idx : Nat) (q : GeneratedItem) : Option String :=
  if q.answer_index < letters.length ∧ q.answer_index < q.choices.length then
    let withAnswer :=
      renderChoices q.choices (toString idx ++ ". " ++ q.question ++ "\n") ++
        "\nCorrect Answer: " ++ letters.getD q.answer_index "" ++ " - " ++
        q.choices.getD q.answer_index ""
    some
      (if q.explanation = "" then withAnswer
        else withAnswer ++ "\nExplanation: " ++ pyTrunc 195 q.explanation)
  else none

/-! ### `app/repositories/users.py` — `reset_notes_if_new_day` -/

/-- The stored `last_note_time` of a user document, as
`reset_notes_if_new_day` classifies it: absent/falsy, a string that
`datetime.fromisoformat` rejects, or a parsed moment carrying its local
calendar date (`.date()`), abstracted to a day number. -/
inductive StoredLast where
  | missing : StoredLast
  | unparseable : StoredLast
  | moment (day : Nat) : StoredLast
deriving DecidableEq

/-- The fields of the user document that `reset_notes_if_new_day` reads or
writes. -/
structure UserDoc where
  notes_today : Nat
  last_note_time : StoredLast
deriving DecidableEq

/-- `reset_notes_if_new_day` (users.py lines 151–167): fetch the user (`none`
= absent, nothing to do); return unchanged when `last_note_time` is absent or
unparseable; otherwise zero `notes_today` exactly when the stored date differs
from today's local date. `today` is `datetime.now().date()` as a day number. -/
def reset_notes_if_new_day (user : Option UserDoc) (today : Nat) : Option UserDoc :=
  match user with
  | none => none
  | some doc =>
    match doc.last_note_time with
    | StoredLast.missing => some doc
    | StoredLast.unparseable => some doc
    | StoredLast.moment d =>
      if d ≠ today then some (UserDoc.mk 0 doc.last_note_time) else some doc

/-! ### `app/services/file_parser.py` — `fetch_and_parse_file` -/

/-- `MAX_FILE_BYTES = 20 * 1024 * 1024` (file_parser.py lines 9–10). -/
def MAX_FILE_BYTES : Nat :=
  20 * 1024 * 1024

/-- The fields of `message.document` that `fetch_and_parse_file` reads. -/
structure TgDoc where
  file_size : Option Nat
  mime_type : Option String
  file_name : Option String

/-- `doc.file_size and doc.file_size > MAX_FILE_BYTES` (file_parser.py
line 81): `None` and `0` are falsy. -/
def sizeExceeds : Option Nat → Bool
  | none => false
  | some n => decide (MAX_FILE_BYTES < n)

/-- `doc.mime_type and sub in doc.mime_type.lower()` (`None`/`""` falsy). -/
def mimeHas (d : TgDoc) (sub : String) : Bool :=
  match d.mime_type with
  | none => false
  | some m => listHasSub sub.toList (pyLower m).toList

/-- `doc.file_name and doc.file_name.lower().endswith(suffix)`. -/
def nameEnds (d : TgDoc) (suffix : String) : Bool :=
  match d.file_name with
  | none => false
  | some n => suffix.toList.isSuffixOf (pyLower n).toList

/-- The mime/extension dispatch of `fetch_and_parse_file` (file_parser.py
lines 85–97). The `_read_*_bytes` helpers are external extractor libraries
that catch their own exceptions and return `""` on failure, so each is
modelled by the text it yields for the downloaded bytes. -/
def selectText (d : TgDoc) (pdfT docxT pptT txtT : String) : String :=
  if mimeHas d "pdf" then pdfT
  else if nameEnds d ".pdf" then pdfT
  else if mimeHas d "word" || mimeHas d "docx" then docxT
  else if nameEnds d ".docx" then docxT
  else if (mimeHas d "powerpoint" || mimeHas d "presentation") ||
      (nameEnds d ".ppt" || nameEnds d ".pptx") then pptT
  else txtT

/-- `doc.file_name or "file"` (file_parser.py lines 100–101). -/
def pyNameOrFile : Option String → String
  | none => "file"
  | some n => if n = "" then "file" else n

/-- `fetch_and_parse_file` (file_parser.py lines 76–101) on a successfully
downloaded document: `ValueError` branches become `Except.error` with the
source's message; on success it returns `(text, file_name or "file")` after
checking `if not text.strip(): raise ValueError(...)`. -/
def fetch_and_parse_file (doc : Option TgDoc) (pdfT docxT pptT txtT : String) :
    Except String (String × String) :=
  match doc with
  | none => Except.error "No document attached"
  | some d =>
    if sizeExceeds d.file_size then
      Except.error "File exceeds 20 MB. Please split it and send again."
    else
      let text := selectText d pdfT docxT pptT txtT
      if pyStrip text = "" then Except.error "Failed to parse file content."
      else Except.ok (text, pyNameOrFile d.file_name)

/-! ### Concrete response elements used by the theorems -/

/-- A response element that passes the client's key-presence validation while
having only one choice and `answer_index = 5`. -/
def badItem : Json :=
  Json.obj [("question", Json.str "q"), ("choices", Json.arr [Json.str "only"]),
    ("answer_index", Json.num 5), ("explanation", Json.str "e")]

/-- A well-shaped response element: two choices, `answer_index = 0`. -/
def goodItem : Json :=
  Json.obj [("question", Json.str "q"),
    ("choices", Json.arr [Json.str "a", Json.str "b"]),
    ("answer_index", Json.num 0), ("explanation", Json.str "e")]

/-- The shape the specification asserts of every surviving element: a
`choices` array of 2–4 entries and an `answer_index` integer that indexes
into it. -/
def claimedShape (j : Json) : Bool :=
  match j.getKey "choices", j.getKey "answer_index" with
  | some (Json.arr cs), some (Json.num i) =>
    decide (2 ≤ cs.length) && decide (cs.length ≤ 4) &&
      decide (0 ≤ i) && decide (i < (cs.length : Int))
  | _, _ => false

/-! ### Helper lemmas -/

lemma mem_parseOutcome_valid (p : Option Json) :
    ∀ j ∈ parseOutcome p, validElem j = true := by
  intro j hj
  cases p with
  | none => simp [parseOutcome] at hj
  | some parsed =>
    cases hit : pyIterate parsed with
    | error u => simp [parseOutcome, hit] at hj
    | ok elems =>
      simp only [parseOutcome, hit, List.mem_filter] at hj
      exact hj.2

lemma genBody_eq_nil_or_parseOutcome (call : CallOutcome) (loads : List Char → Option Json) :
    genBody call loads = [] ∨ ∃ p, genBody call loads = parseOutcome p := by
  cases call with
  | exn => exact Or.inl rfl
  | ok t =>
    cases t with
    | none => exact Or.inl rfl
    | some rt =>
      by_cases hrt : rt = ""
      · exact Or.inl (by simp [genBody, hrt])
      · exact Or.inr ⟨extractParsed rt loads, by simp [genBody, hrt]⟩

/-- **C5** — `generate_questions` never lets a parse or network exception
escape: an exception during the external call, a `None`/empty response text,
or a response on which every `json.loads` attempt fails, all yield the empty
list (the embedding is a total function returning `List Json`, mirroring the
source's outer `except` that maps every escape to `return []`). -/
theorem gemini_no_exception_escapes (uk : Option String) (gk : String)
    (loads : List Char → Option Json) :
    (generate_questions uk gk CallOutcome.exn loads).1 = [] ∧
    (generate_questions uk gk (CallOutcome.ok none) loads).1 = [] ∧
    (generate_questions uk gk (CallOutcome.ok (some "")) loads).1 = [] ∧
    ∀ rt : String, (∀ s, loads s = none) →
      (generate_questions uk gk (CallOutcome.ok (some rt)) loads).1 = [] := by
  have hbody : ∀ c, (generate_questions uk gk c loads).1 = [] ∨
      (generate_questions uk gk c loads).1 = genBody c loads := by
    intro c
    unfold generate_questions
    cases choose_api_key uk gk <;> simp
  refine ⟨?_, ?_, ?_, ?_⟩
  · rcases hbody CallOutcome.exn with h | h
    · exact h
    · rw [h]; rfl
  · rcases hbody (CallOutcome.ok none) with h | h
    · exact h
    · rw [h]; rfl
  · rcases hbody (CallOutcome.ok (some "")) with h | h
    · exact h
    · rw [h]; rfl
  · intro rt hloads
    rcases hbody (CallOutcome.ok (some rt)) with h | h
    · exact h
    · rw [h]
      by_cases hrt : rt = ""
      · simp [genBody, hrt]
      · have hp : extractParsed rt loads = none := by
          unfold extractParsed
          simp only [hloads]
          split <;> rfl
        simp [genBody, hrt, hp, parseOutcome]

/-- Witness for C5: a concrete run in which `json.loads` fails on every
string, evaluated at a present API key and the response text `"x"`. -/
theorem gemini_no_exception_escapes_witness :
    ((fun _ : List Char => (none : Option Json)) "x".toList = none) ∧
    (generate_questions (some "k") "" (CallOutcome.ok (some "x"))
        (fun _ => none)).1 = [] :=
  ⟨rfl, (gemini_no_exception_escapes (some "k") "" (fun _ => none)).2.2.2 "x"
    (fun _ => rfl)⟩

/-- **C4, counterexample** — an element carrying all four required keys but a
single-element `choices` array and `answer_index = 5` survives validation:
the claim that every surviving element has 2–4 choices and an in-range
`answer_index` is false on the code. -/
theorem gemini_validation_cex :
    (generate_questions (some "k") "" (CallOutcome.ok (some "[]"))
        (fun _ => some (Json.arr [badItem]))).1 = [badItem] ∧
    claimedShape badItem = false :=
  ⟨rfl, rfl⟩

/-- **C4, amended** — every element returned by `generate_questions` is a
JSON object carrying all four required keys (`question`, `choices`,
`answer_index`, `explanation`); elements not of that shape are discarded.
The code checks nothing further: neither the choice count nor the range of
`answer_index`. -/
theorem gemini_validation_amended (uk : Option String) (gk : String)
    (call : CallOutcome) (loads : List Char → Option Json) :
    ∀ j ∈ (generate_questions uk gk call loads).1, validElem j = true := by
  intro j hj
  have hsplit : (generate_questions uk gk call loads).1 = [] ∨
      (generate_questions uk gk call loads).1 = genBody call loads := by
    unfold generate_questions
    cases choose_api_key uk gk <;> simp
  rcases hsplit with h | h
  · rw [h] at hj; simp at hj
  · rw [h] at hj
    rcases genBody_eq_nil_or_parseOutcome call loads with h2 | ⟨p, h2⟩
    · rw [h2] at hj; simp at hj
    · rw [h2] at hj; exact mem_parseOutcome_valid p j hj

/-- Witness for C4's amended theorem: a concrete run whose output contains
`goodItem`, which indeed carries the four required keys. -/
theorem gemini_validation_amended_witness :
    goodItem ∈ (generate_questions (some "k") "" (CallOutcome.ok (some "[]"))
        (fun _ => some (Json.arr [goodItem]))).1 ∧
    validElem goodItem = true := by
  have hmem : goodItem ∈ (generate_questions (some "k") ""
      (CallOutcome.ok (some "[]")) (fun _ => some (Json.arr [goodItem]))).1 :=
    List.mem_singleton_self goodItem
  exact ⟨hmem, gemini_validation_amended (some "k") "" (CallOutcome.ok (some "[]"))
    (fun _ => some (Json.arr [goodItem])) goodItem hmem⟩

/-- **C10** — when neither a user key nor a global key resolves
(`choose_api_key = none`), `generate_questions` returns the empty list with
zero external calls attempted — to the caller the same value an unproductive
generation returns. -/
theorem gemini_no_key_no_call (uk : Option String) (gk : String)
    (call : CallOutcome) (loads : List Char → Option Json)
    (h : choose_api_key uk gk = none) :
    generate_questions uk gk call loads = ([], 0) := by
  unfold generate_questions
  rw [h]

/-- Witness for C10: no user key and an empty global key resolve to no key,
and the run returns `([], 0)`. -/
theorem gemini_no_key_no_call_witness :
    choose_api_key none "" = none ∧
    generate_questions none "" CallOutcome.exn (fun _ => none) = ([], 0) :=
  ⟨rfl, gemini_no_key_no_call none "" CallOutcome.exn (fun _ => none) rfl⟩

/-- **C1** — the conditional claim on a pending job: the first of two
serialised claim attempts succeeds (`modified_count = 1`, status becomes
`processing`), the second observes `modified_count = 0`, and exactly one
worker executes the job body; from any initial status at most one of the two
attempts succeeds. Both workers run the identical conditional update, so the
single serialisation order covers both interleavings. -/
theorem claim_exactly_one_succeeds :
    (claimJob JobStatus.pending).2 = 1 ∧
    (claimJob JobStatus.pending).1 = JobStatus.processing ∧
    (claimJob (claimJob JobStatus.pending).1).2 = 0 ∧
    executionsOfTwoClaims JobStatus.pending = 1 ∧
    ∀ s : JobStatus, executionsOfTwoClaims s ≤ 1 := by
  refine ⟨rfl, rfl, rfl, rfl, ?_⟩
  intro s
  cases s <;> decide

/-- **C2** — for `desired_count ≥ 1` and `chunk_count ≥ 1`, the chunk
distribution of `_tick` uses `per_chunk = max(1, desired_count // chunk_count)`,
makes at most `chunk_count` generation calls, and its final result holds at
most `desired_count` items. -/
theorem distribute_bounds (num : Nat) (chunks : List (List Char))
    (gen : List Char → Nat → List Json)
    (hnum : 1 ≤ num) (hchunks : 1 ≤ chunks.length) :
    schedulerPerChunk num chunks.length = max 1 (num / chunks.length) ∧
    (schedulerDistribute num chunks gen).2 ≤ chunks.length ∧
    (schedulerDistribute num chunks gen).1.length ≤ num := by
  refine ⟨?_, ?_, ?_⟩
  · unfold schedulerPerChunk
    rw [Nat.max_eq_right hchunks]
  · have hcalls : ∀ (cs : List (List Char)) (acc : List Json),
        (distributeLoop num (schedulerPerChunk num chunks.length) gen cs acc).2 ≤ cs.length := by
      intro cs
      induction cs with
      | nil => intro acc; simp [distributeLoop]
      | cons ch rest ih =>
        intro acc
        by_cases hacc : num ≤ acc.length
        · simp [distributeLoop, hacc]
        · simp only [distributeLoop, if_neg hacc, List.length_cons]
          exact Nat.succ_le_succ (ih _)
    exact hcalls chunks []
  · unfold schedulerDistribute
    simp only [List.length_take]
    exact min_le_left _ _

/-- Witness for C2: the spec's own scenario — ten items requested over three
chunks, each chunk yielding three items: per_chunk is 3, three calls are made,
and the result has nine items (at most ten). -/
theorem distribute_bounds_witness :
    (1 ≤ 10 ∧ 1 ≤ ([['a'], ['b'], ['c']] : List (List Char)).length) ∧
    (schedulerPerChunk 10 3 = max 1 (10 / 3) ∧
      (schedulerDistribute 10 [['a'], ['b'], ['c']]
          (fun _ k => [Json.num 1, Json.num 2, Json.num 3].take (max k 3))).2 ≤ 3 ∧
      (schedulerDistribute 10 [['a'], ['b'], ['c']]
          (fun _ k => [Json.num 1, Json.num 2, Json.num 3].take (max k 3))).1.length ≤ 10) :=
  ⟨⟨by decide, by decide⟩,
    distribute_bounds 10 [['a'], ['b'], ['c']]
      (fun _ k => [Json.num 1, Json.num 2, Json.num 3].take (max k 3))
      (by decide) (by decide)⟩

/-- **C6** — a claimed job whose generation yields zero items is marked
`failed` with no delivery sends, `failed` is not `sent`, and `failed` is
terminal: a failed job is never selected as due again (`status=pending`
filter) and can never be claimed (`modified_count = 0`). -/
theorem empty_generation_fails_job (questions : List Json) (t now : Nat)
    (h : questions = []) :
    runClaimedJob questions = (JobStatus.failed, 0) ∧
    (runClaimedJob questions).1 ≠ JobStatus.sent ∧
    isDue JobStatus.failed t now = false ∧
    (claimJob JobStatus.failed).2 = 0 := by
  subst h
  exact ⟨rfl, by decide, rfl, rfl⟩

/-- Witness for C6: the empty question list at a concrete schedule time. -/
theorem empty_generation_fails_job_witness :
    (([] : List Json) = []) ∧
    (runClaimedJob ([] : List Json) = (JobStatus.failed, 0) ∧
      (runClaimedJob ([] : List Json)).1 ≠ JobStatus.sent ∧
      isDue JobStatus.failed 3 7 = false ∧
      (claimJob JobStatus.failed).2 = 0) :=
  ⟨rfl, empty_generation_fails_job [] 3 7 rfl⟩

/-- **C9** — text-mode rendering of an item with four choices and
`answer_index = 2`: the choices are lettered `A`–`D` and the correct-answer
line names letter `C` together with the third choice's text. -/
theorem render_third_choice_correct (idx : Nat) (question c0 c1 c2 c3 : String) :
    renderText idx (GeneratedItem.mk question [c0, c1, c2, c3] 2 "") =
      some (toString idx ++ ". " ++ question ++ "\n" ++
        "A" ++ ". " ++ c0 ++ "\n" ++ "B" ++ ". " ++ c1 ++ "\n" ++
        "C" ++ ". " ++ c2 ++ "\n" ++ "D" ++ ". " ++ c3 ++ "\n" ++
        "\nCorrect Answer: " ++ "C" ++ " - " ++ c2) := by
  rfl

/-! ### Chunker lemmas -/

lemma chunkAux_join (m : Nat) (hm : 1 ≤ m) :
    ∀ (fuel : Nat) (buf : List Char), buf.length ≤ fuel →
      (chunkAux m fuel buf).flatten = buf := by
  intro fuel
  induction fuel with
  | zero =>
    intro buf hbuf
    have hb : buf = [] := List.eq_nil_of_length_eq_zero (Nat.le_zero.mp hbuf)
    subst hb
    rfl
  | succ n ih =>
    intro buf hbuf
    cases buf with
    | nil => rfl
    | cons c rest =>
      show ((c :: rest).take m ++ (chunkAux m n ((c :: rest).drop m)).flatten) = c :: rest
      rw [ih ((c :: rest).drop m) ?_]
      · exact List.take_append_drop m (c :: rest)
      · rw [List.length_drop]
        simp only [List.length_cons] at hbuf ⊢
        omega

lemma chunkAux_chunk_le (m : Nat) :
    ∀ (fuel : Nat) (buf : List Char), ∀ c ∈ chunkAux m fuel buf, c.length ≤ m := by
  intro fuel
  induction fuel with
  | zero => intro buf c hc; simp [chunkAux] at hc
  | succ n ih =>
    intro buf c hc
    cases buf with
    | nil => simp [chunkAux] at hc
    | cons x rest =>
      simp only [chunkAux] at hc
      rcases List.mem_cons.mp hc with hceq | hc2
      · subst hceq
        rw [List.length_take]
        exact min_le_left _ _
      · exact ih _ c hc2

/-- **C3, counterexample** — on the input `" a"` with `max_chars = 1`, the
chunks of `chunk_text` concatenate to `"a"`, not to the original text: the
leading `text.strip()` makes the exact round-trip claim false. -/
theorem chunk_text_cex :
    ¬ ((chunk_text [' ', 'a'] 1).flatten = [' ', 'a'] ∧
      ∀ c ∈ chunk_text [' ', 'a'] 1, c.length ≤ 1) := by
  decide

/-- **C3, amended** — for `max_chars ≥ 1`, concatenating the chunks of
`chunk_text(text, max_chars)` reproduces `text.strip()` — the input with
leading and trailing whitespace removed — exactly, each chunk is at most
`max_chars` long, and on inputs without leading/trailing whitespace the
original text is reproduced exactly. -/
theorem chunk_text_amended (text : List Char) (m : Nat) (hm : 1 ≤ m) :
    (chunk_text text m).flatten = pyStripL text ∧
    (∀ c ∈ chunk_text text m, c.length ≤ m) ∧
    (pyStripL text = text → (chunk_text text m).flatten = text) := by
  have hjoin : (chunk_text text m).flatten = pyStripL text :=
    chunkAux_join m hm (pyStripL text).length (pyStripL text) le_rfl
  exact ⟨hjoin, fun c hc => chunkAux_chunk_le m _ _ c hc,
    fun h => by rw [hjoin, h]⟩

/-- Witness for C3's amended theorem: `"ab"` with `max_chars = 1` chunks to
`["a", "b"]`, which concatenates back to `"ab"`. -/
theorem chunk_text_amended_witness :
    1 ≤ 1 ∧
    ((chunk_text ['a', 'b'] 1).flatten = pyStripL ['a', 'b'] ∧
      (∀ c ∈ chunk_text ['a', 'b'] 1, c.length ≤ 1) ∧
      (pyStripL ['a', 'b'] = ['a', 'b'] →
        (chunk_text ['a', 'b'] 1).flatten = ['a', 'b'])) :=
  ⟨le_rfl, chunk_text_amended ['a', 'b'] 1 le_rfl⟩

/-- **C7** — the lazy daily reset: with the stored last-activity date equal to
today, or no stored (or unparseable) last-activity time, the document is
unchanged; the counter is zeroed exactly when the stored date differs from
today; and the operation is idempotent — a second evaluation on the same day
changes nothing further, so the reset happens at most once per day boundary. -/
theorem reset_only_on_new_day (doc : UserDoc) (today : Nat) :
    (doc.last_note_time = StoredLast.missing →
      reset_notes_if_new_day (some doc) today = some doc) ∧
    (doc.last_note_time = StoredLast.unparseable →
      reset_notes_if_new_day (some doc) today = some doc) ∧
    (∀ d, doc.last_note_time = StoredLast.moment d → d = today →
      reset_notes_if_new_day (some doc) today = some doc) ∧
    (∀ d, doc.last_note_time = StoredLast.moment d → d ≠ today →
      reset_notes_if_new_day (some doc) today = some (UserDoc.mk 0 doc.last_note_time)) ∧
    reset_notes_if_new_day (reset_notes_if_new_day (some doc) today) today =
      reset_notes_if_new_day (some doc) today := by
  obtain ⟨n, lt⟩ := doc
  refine ⟨?_, ?_, ?_, ?_, ?_⟩
  · intro h
    simp only at h
    simp [reset_notes_if_new_day, h]
  · intro h
    simp only at h
    simp [reset_notes_if_new_day, h]
  · intro d h hd
    simp only at h
    simp [reset_notes_if_new_day, h, hd]
  · intro d h hd
    simp only at h
    simp [reset_notes_if_new_day, h, hd]
  · cases lt with
    | missing => simp [reset_notes_if_new_day]
    | unparseable => simp [reset_notes_if_new_day]
    | moment d =>
      by_cases hd : d = today
      · simp [reset_notes_if_new_day, hd]
      · simp [reset_notes_if_new_day, hd]

/-- Witness for C7: a user with three notes today and a stale stored date (day
5, today day 9) is zeroed; the hypotheses are discharged concretely. -/
theorem reset_only_on_new_day_witness :
    (StoredLast.moment 5 = StoredLast.moment 5) ∧ (5 ≠ 9) ∧
    reset_notes_if_new_day (some (UserDoc.mk 3 (StoredLast.moment 5))) 9 =
      some (UserDoc.mk 0 (StoredLast.moment 5)) :=
  ⟨rfl, by decide,
    (reset_only_on_new_day (UserDoc.mk 3 (StoredLast.moment 5)) 9).2.2.2.1 5 rfl
      (by decide)⟩

/-- **C8** — `fetch_and_parse_file` either fails with one of its `ValueError`
messages or returns content text that is non-empty after stripping; it never
returns empty or whitespace-only text. -/
theorem parse_file_nonempty_or_error (doc : Option TgDoc)
    (pdfT docxT pptT txtT : String) :
    (∃ msg, fetch_and_parse_file doc pdfT docxT pptT txtT = Except.error msg) ∨
    (∃ t n, fetch_and_parse_file doc pdfT docxT pptT txtT = Except.ok (t, n) ∧
      pyStrip t ≠ "") := by
  cases doc with
  | none => exact Or.inl ⟨"No document attached", rfl⟩
  | some d =>
    by_cases h1 : sizeExceeds d.file_size
    · exact Or.inl ⟨"File exceeds 20 MB. Please split it and send again.",
        by simp [fetch_and_parse_file, h1]⟩
    · by_cases h2 : pyStrip (selectText d pdfT docxT pptT txtT) = ""
      · exact Or.inl ⟨"Failed to parse file content.",
          by simp [fetch_and_parse_file, h1, h2]⟩
      · exact Or.inr ⟨selectText d pdfT docxT pptT txtT, pyNameOrFile d.file_name,
          by simp [fetch_and_parse_file, h1, h2], h2⟩
